import Mathlib

/-!
Verification of the Auroville events chatbot core
(`src/vectordb_filtering_agent.py`, `src/app.py`).

The definitions below are a shallow embedding of the Python source:
`search_auroville_events` (the RAG tool: retrieval depth, filter dict
construction, weekday derivation from a date string via two `strptime`
attempts, Chroma filter assembly, output formatting) and the error
handling of `streaming_chat` in `app.py`.  The external vector-store
retriever and the LLM calls are modelled as function parameters.
-/

/-! ## Python `datetime.strptime(s, "%B %d, %Y")` embedding

CPython `_strptime` compiles the format to a case-insensitive regex:
month names as an alternation for `%B`, `\s+` for each whitespace run
in the format, the day pattern `3[01]|[12]\d|0[1-9]|[1-9]` for `%d`,
four digits for `%Y`, anchored at both ends; the resulting values are
then validated by the `datetime` constructor (year in 1..9999, day at
most the length of the month). -/

/-- Characters matched by the regex class backslash-s (ASCII part). -/
def pyIsSpace (c : Char) : Bool :=
  c = ' ' || c = '\t' || c = '\n' || c = '\r' || c = '\x0b' || c = '\x0c'

/-- Full English month names, as matched by the `%B` directive. -/
def monthNames : List String :=
  ["January", "February", "March", "April", "May", "June", "July",
   "August", "September", "October", "November", "December"]

/-- Try month names in turn (case-insensitively) against the front of `s`;
`i` is the month number of the first name in `names`. -/
def matchMonthGo (s : List Char) (i : Nat) : List String → Option (Nat × List Char)
  | [] => none
  | n :: rest =>
    let nc := n.data.map Char.toLower
    if (s.take nc.length).map Char.toLower = nc then some (i, s.drop nc.length)
    else matchMonthGo s (i + 1) rest

/-- Match a full month name at the front of `s`, case-insensitively,
returning the month number (1..12) and the remaining characters. -/
def matchMonth (s : List Char) : Option (Nat × List Char) :=
  matchMonthGo s 1 monthNames

/-- Match the regex `\s+`: at least one whitespace character, greedily. -/
def matchSpaces1 : List Char → Option (List Char)
  | [] => none
  | c :: rest => if pyIsSpace c then some (rest.dropWhile pyIsSpace) else none

/-- Numeric value of a digit character. -/
def digitVal (c : Char) : Nat := c.toNat - 48

/-- The two-character alternatives of the `%d` pattern
`3[01]|[12]\d|0[1-9]`, in regex alternation order. -/
def twoDigitDay : List Char → Option (Nat × List Char)
  | c1 :: c2 :: rest =>
    if c1 = '3' && (c2 = '0' || c2 = '1') then
      some (digitVal c1 * 10 + digitVal c2, rest)
    else if (c1 = '1' || c1 = '2') && c2.isDigit then
      some (digitVal c1 * 10 + digitVal c2, rest)
    else if c1 = '0' && c2.isDigit && c2 ≠ '0' then
      some (digitVal c2, rest)
    else none
  | _ => none

/-- The one-character alternative `[1-9]` of the `%d` pattern. -/
def oneDigitDay : List Char → Option (Nat × List Char)
  | [] => none
  | c :: rest => if c.isDigit && c ≠ '0' then some (digitVal c, rest) else none

/-- After the day: a literal comma, `\s+`, exactly four digits (`%Y`),
then end of input.  Returns the year. -/
def matchTail : List Char → Option Nat
  | ',' :: rest =>
    match matchSpaces1 rest with
    | some (a :: b :: c :: d :: []) =>
      if a.isDigit && b.isDigit && c.isDigit && d.isDigit then
        some (digitVal a * 1000 + digitVal b * 100 + digitVal c * 10 + digitVal d)
      else none
    | _ => none
  | _ => none

/-- Gregorian leap-year test, as in Python `calendar.isleap`. -/
def isLeap (y : Nat) : Bool := y % 4 = 0 && (y % 100 ≠ 0 || y % 400 = 0)

/-- Number of days in month `m` of year `y`. -/
def daysInMonth (y m : Nat) : Nat :=
  if m = 2 then (if isLeap y then 29 else 28)
  else if m = 4 ∨ m = 6 ∨ m = 9 ∨ m = 11 then 30
  else 31

/-- Days in year `y` strictly before month `m`. -/
def daysBeforeMonth (y m : Nat) : Nat :=
  (List.range (m - 1)).foldl (fun acc i => acc + daysInMonth y (i + 1)) 0

/-- Proleptic Gregorian ordinal of the date, with 0001-01-01 ↦ 1
(Python `date.toordinal`). -/
def rataDie (y m d : Nat) : Nat :=
  365 * (y - 1) + (y - 1) / 4 - (y - 1) / 100 + (y - 1) / 400 + daysBeforeMonth y m + d

/-- Weekday names in Python order: `date.weekday()` has Monday = 0,
and 0001-01-01 is a Monday. -/
def dayNames : List String :=
  ["Monday", "Tuesday", "Wednesday", "Thursday", "Friday", "Saturday", "Sunday"]

/-- Python strftime with directive %A: the full weekday name of a
Gregorian date. -/
def weekdayName (y m d : Nat) : String :=
  (dayNames.get? ((rataDie y m d - 1) % 7)).getD ""

/-- Embedding of `datetime.strptime(s, "%B %d, %Y")` as a total function:
`some (year, month, day)` on success, `none` where Python raises
`ValueError`.  Mirrors the compiled regex (with its backtracking from a
two-digit day match to a one-digit one) followed by constructor
validation. -/
def strptimeBDY (s : String) : Option (Nat × Nat × Nat) :=
  match matchMonth s.data with
  | none => none
  | some (m, r1) =>
    match matchSpaces1 r1 with
    | none => none
    | some r2 =>
      let attempt2 : Option (Nat × Nat) :=
        match twoDigitDay r2 with
        | some (d, r3) => (matchTail r3).map (fun y => (y, d))
        | none => none
      let result : Option (Nat × Nat) :=
        match attempt2 with
        | some yd => some yd
        | none =>
          match oneDigitDay r2 with
          | some (d, r3) => (matchTail r3).map (fun y => (y, d))
          | none => none
      match result with
      | none => none
      | some (y, d) => if 1 ≤ y ∧ d ≤ daysInMonth y m then some (y, m, d) else none

/-! ## The RAG tool `search_auroville_events` -/

/-- Truthiness of a Python `Optional[str]`: `None` and `""` are falsy. -/
def truthy : Option String → Bool
  | none => false
  | some s => !s.isEmpty

/-- Python `dict` assignment `d[k] = v`: update in place preserving
insertion order, appending when the key is new. -/
def dictSet : List (String × String) → String → String → List (String × String)
  | [], k, v => [(k, v)]
  | (k0, v0) :: t, k, v =>
    if k0 = k then (k, v) :: t else (k0, v0) :: dictSet t k v

/-- Python `dict.get(k)`: the value stored at key `k`, if any. -/
def dictGet : List (String × String) → String → Option String
  | [], _ => none
  | (k0, v0) :: t, k => if k0 = k then some v0 else dictGet t k

/-- The nested try/except of the source: parse `filter_date` as
"Month DD, YYYY"; on `ValueError` retry with `", {current year}"`
appended; on a second `ValueError` give up (`none`, logged not raised). -/
def deriveDay (filter_date : String) (currentYear : Nat) : Option String :=
  match strptimeBDY filter_date with
  | some (y, m, d) => some (weekdayName y m d)
  | none =>
    match strptimeBDY (filter_date ++ ", " ++ toString currentYear) with
    | some (y, m, d) => some (weekdayName y m d)
    | none => none

/-- The `simple_filters` dict after steps 1 of the tool: date first,
then the weekday derived from the date, then the explicit `filter_day`
(overwriting a derived one), then `filter_location`. -/
def simple_filters (filter_day filter_date filter_location : Option String)
    (currentYear : Nat) : List (String × String) :=
  let s : List (String × String) := []
  let s := if truthy filter_date then dictSet s "date" (filter_date.getD "") else s
  let s :=
    if truthy filter_date then
      match deriveDay (filter_date.getD "") currentYear with
      | some d => dictSet s "day" d
      | none => s
    else s
  let s := if truthy filter_day then dictSet s "day" (filter_day.getD "") else s
  let s := if truthy filter_location then dictSet s "location" (filter_location.getD "") else s
  s

/-- The Chroma filter dict the tool can build: a single equality test
`\x7bkey: \x7b"$eq": value\x7d\x7d`, an `$or` of such tests, or an
`$and` of them (expressible in Chroma, never produced by this code). -/
inductive ChromaFilter where
  | single : String → String → ChromaFilter
  | orOf : List (String × String) → ChromaFilter
  | andOf : List (String × String) → ChromaFilter
deriving DecidableEq, Repr

/-- Step 2 of the tool: `none` for an empty `simple_filters` (no
`filter` key in `search_kwargs`), the lone equality for one entry, the
`$or` of all equalities otherwise. -/
def build_chroma_filter (sf : List (String × String)) : Option ChromaFilter :=
  if 1 ≤ sf.length then
    if sf.length = 1 then
      match sf with
      | (k, v) :: _ => some (ChromaFilter.single k v)
      | [] => none
    else some (ChromaFilter.orOf sf)
  else none

/-- Python `str.lower()` (ASCII case mapping suffices here). -/
def pyLower (s : String) : String := String.mk (s.data.map Char.toLower)

/-- Retrieval depth: `k_value = 100 if specificity.lower() == "broad" else 20`. -/
def k_value (specificity : String) : Nat :=
  if pyLower specificity = "broad" then 100 else 20

/-- A retrieved document: page content plus the metadata fields the
formatter reads (`metadata.get` returns `None`-like absence). -/
structure Doc where
  day : Option String
  date : Option String
  location : Option String
  page_content : String
deriving DecidableEq

/-- One line of the context block:
`Document i+1 (Day: .. | Date: .. | Location: ..):\n{content}`. -/
def formatDoc (i : Nat) (doc : Doc) : String :=
  "Document " ++ toString (i + 1) ++
  " (Day: " ++ doc.day.getD "N/A" ++
  " | Date: " ++ doc.date.getD "N/A" ++
  " | Location: " ++ doc.location.getD "N/A" ++ "):\n" ++ doc.page_content

/-- The fixed message returned when retrieval yields no documents. -/
def no_results_message : String :=
  "No relevant information found about Auroville events based on your query and filters."

/-- The body of `search_auroville_events`: pick `k` from the
specificity, build `simple_filters` and the Chroma filter, invoke the
retriever (an external dependency, passed as a function), and format
the result. -/
def search_auroville_events (search_query specificity : String)
    (filter_day filter_date filter_location : Option String)
    (currentYear : Nat)
    (retriever : String → Nat → Option ChromaFilter → List Doc) : String :=
  let kv := k_value specificity
  let sf := simple_filters filter_day filter_date filter_location currentYear
  let chroma_filter := build_chroma_filter sf
  let docs := retriever search_query kv chroma_filter
  if docs.isEmpty then no_results_message
  else
    "Here is relevant information about Auroville events:\n\n" ++
      String.intercalate "\n\n" (docs.enum.map (fun p => formatDoc p.1 p.2))

/-! ## `streaming_chat` error handling (`app.py`) -/

/-- One chat message. -/
structure Msg where
  role : String
  content : String
deriving DecidableEq

/-- Outcome of the streamed agent run inside the `try` block: either the
accumulated response text, or the text of the exception a dependency
raised. -/
inductive RunOutcome where
  | ok : String → RunOutcome
  | err : String → RunOutcome

/-- The apology built in the `except` handler of `streaming_chat`. -/
def apology (e : String) : String :=
  "I encountered an error: " ++ e ++ ". Please try again."

/-- The final history `streaming_chat` yields to the UI: the streamed
text when non-empty, a fixed fallback when the run produced nothing,
and the apology when a dependency raised — in every case a value is
yielded and no exception escapes. -/
def streaming_chat_final (question : String) (history : List Msg) :
    RunOutcome → List Msg
  | RunOutcome.ok response_text =>
    if response_text ≠ "" then
      history ++ [⟨"user", question⟩, ⟨"assistant", response_text⟩]
    else
      history ++ [⟨"user", question⟩,
        ⟨"assistant", "I apologize, but I couldn\x27t generate a proper response. Please try again."⟩]
  | RunOutcome.err e =>
    history ++ [⟨"user", question⟩, ⟨"assistant", apology e⟩]

/-! ## Dictionary lemmas -/

/-- Assigning key `k` makes `k` map to the assigned value. -/
theorem dictGet_dictSet_self (s : List (String × String)) (k v : String) :
    dictGet (dictSet s k v) k = some v := by
  induction s with
  | nil => simp [dictSet, dictGet]
  | cons p t ih =>
    obtain ⟨k0, v0⟩ := p
    by_cases h : k0 = k <;> simp [dictSet, dictGet, h, ih]

/-- Assigning key `k1` leaves every other key unchanged. -/
theorem dictGet_dictSet_ne (s : List (String × String)) (k1 v k : String)
    (h : k1 ≠ k) : dictGet (dictSet s k1 v) k = dictGet s k := by
  induction s with
  | nil => simp [dictSet, dictGet, h]
  | cons p t ih =>
    obtain ⟨k0, v0⟩ := p
    by_cases h0 : k0 = k1 <;> simp [dictSet, dictGet, h0, h, ih]

/-! ## Claims -/

/-- C1: in `search_auroville_events`, zero assembled conditions give no
filter at all, exactly one gives that single equality test un-wrapped,
and two or more give precisely the OR-combination of the equality
tests — never an AND-combination. -/
theorem C1_filter_shape (fday fdate floc : Option String) (year : Nat) :
    (simple_filters fday fdate floc year = [] →
      build_chroma_filter (simple_filters fday fdate floc year) = none) ∧
    (∀ k v, simple_filters fday fdate floc year = [(k, v)] →
      build_chroma_filter (simple_filters fday fdate floc year) =
        some (ChromaFilter.single k v)) ∧
    (2 ≤ (simple_filters fday fdate floc year).length →
      build_chroma_filter (simple_filters fday fdate floc year) =
        some (ChromaFilter.orOf (simple_filters fday fdate floc year)) ∧
      ∀ cs, build_chroma_filter (simple_filters fday fdate floc year) ≠
        some (ChromaFilter.andOf cs)) := by
  generalize simple_filters fday fdate floc year = sf
  refine ⟨fun h => by simp [h, build_chroma_filter],
          fun k v h => by simp [h, build_chroma_filter], fun h => ?_⟩
  match sf, h with
  | a :: b :: t, _ =>
    constructor
    · simp [build_chroma_filter]
    · intro cs hcs
      simp [build_chroma_filter] at hcs

/-- Closed instance of C1: two hints produce the OR filter. -/
theorem C1_filter_shape_witness :
    build_chroma_filter (simple_filters (some "Monday") none (some "Town Hall") 2026) =
      some (ChromaFilter.orOf
        (simple_filters (some "Monday") none (some "Town Hall") 2026)) :=
  ((C1_filter_shape (some "Monday") none (some "Town Hall") 2026).2.2 (by decide)).1

/-- C2: weekday derivation first parses `filter_date` as
"Month DD, YYYY"; on failure it retries with the current year appended;
when both attempts fail no day condition is added (with no explicit
`filter_day`) and the total function proceeds, raising nothing. -/
theorem C2_derivation_fallback (fd : String) (year : Nat) :
    (∀ y m d, strptimeBDY fd = some (y, m, d) →
      deriveDay fd year = some (weekdayName y m d)) ∧
    (strptimeBDY fd = none →
      ∀ y m d, strptimeBDY (fd ++ ", " ++ toString year) = some (y, m, d) →
        deriveDay fd year = some (weekdayName y m d)) ∧
    (strptimeBDY fd = none → strptimeBDY (fd ++ ", " ++ toString year) = none →
      deriveDay fd year = none ∧
      ∀ floc, dictGet (simple_filters none (some fd) floc year) "day" = none) := by
  refine ⟨fun y m d h => by simp [deriveDay, h],
          fun h1 y m d h2 => by simp [deriveDay, h1, h2],
          fun h1 h2 => ⟨by simp [deriveDay, h1, h2], fun floc => ?_⟩⟩
  have hd : deriveDay fd year = none := by simp [deriveDay, h1, h2]
  simp only [simple_filters, truthy, Option.getD_some, hd, Bool.if_false_left]
  by_cases he : fd.isEmpty
  · simp only [he, Bool.not_true, Bool.false_eq_true, if_false, if_neg]
    split <;> simp [dictGet]
  · simp only [he, Bool.not_false, if_true, if_pos]
    split <;> simp [dictGet]

/-- Closed instance of C2: both parse attempts fail on a garbage date
string, so no day condition appears. -/
theorem C2_derivation_fallback_witness :
    deriveDay "Foo" 2026 = none ∧
    dictGet (simple_filters none (some "Foo") none 2026) "day" = none :=
  have h := (C2_derivation_fallback "Foo" 2026).2.2 (by decide) (by decide)
  ⟨h.1, h.2 none⟩

/-- C3: for `filter_date = "November 5, 2025"` alone, the tool derives
`day = "Wednesday"` (the Gregorian weekday of 2025-11-05) and builds the
OR filter over the date and day equality conditions. -/
theorem C3_november5 :
    simple_filters none (some "November 5, 2025") none 2026 =
      [("date", "November 5, 2025"), ("day", "Wednesday")] ∧
    build_chroma_filter (simple_filters none (some "November 5, 2025") none 2026) =
      some (ChromaFilter.orOf [("date", "November 5, 2025"), ("day", "Wednesday")]) ∧
    weekdayName 2025 11 5 = "Wednesday" := by
  refine ⟨by decide, by decide, by decide⟩

/-- C4: the retrieval depth for Broad (100) is strictly larger than the
depth for Specific (20). -/
theorem C4_depth_ordering :
    k_value "Broad" = 100 ∧ k_value "Specific" = 20 ∧
    k_value "Specific" < k_value "Broad" := by decide

/-- C5: when the retriever returns no documents the tool returns the one
fixed non-empty no-results message (and, being total, raises nothing). -/
theorem C5_empty_results (q spec : String) (fday fdate floc : Option String)
    (year : Nat) (retriever : String → Nat → Option ChromaFilter → List Doc)
    (h : retriever q (k_value spec)
        (build_chroma_filter (simple_filters fday fdate floc year)) = []) :
    search_auroville_events q spec fday fdate floc year retriever =
      no_results_message ∧ no_results_message ≠ "" := by
  constructor
  · simp [search_auroville_events, h]
  · decide

/-- Closed instance of C5: an empty retriever yields the fixed message. -/
theorem C5_empty_results_witness :
    search_auroville_events "yoga" "Broad" none none none 2026 (fun _ _ _ => []) =
      no_results_message ∧ no_results_message ≠ "" :=
  C5_empty_results "yoga" "Broad" none none none 2026 (fun _ _ _ => []) rfl

/-- A non-empty Python string is truthy. -/
theorem truthy_some_of_ne (s : String) (h : s ≠ "") : truthy (some s) = true := by
  have hE : s.isEmpty = false := by
    rw [← Bool.not_eq_true, String.isEmpty_iff]
    exact h
  simp [truthy, hE]

/-- The absent optional string is falsy. -/
theorem truthy_none : truthy none = false := rfl

/-- C6: an explicitly provided `filter_day` is the day condition of the
emitted filter (it overwrites any weekday derived from the date); a
derived weekday becomes the day condition only when `filter_day` is
absent. -/
theorem C6_explicit_day_precedence (fdate floc : Option String) (year : Nat) :
    (∀ fday, fday ≠ "" →
      dictGet (simple_filters (some fday) fdate floc year) "day" = some fday) ∧
    (∀ fd w, fd ≠ "" → fdate = some fd → deriveDay fd year = some w →
      dictGet (simple_filters none fdate floc year) "day" = some w) := by
  constructor
  · intro fday hne
    have ht : truthy (some fday) = true := truthy_some_of_ne fday hne
    simp only [simple_filters, ht, if_true, Option.getD_some]
    split
    · rw [dictGet_dictSet_ne _ _ _ _ (by decide), dictGet_dictSet_self]
    · rw [dictGet_dictSet_self]
  · intro fd w hne hfd hw
    subst hfd
    have ht : truthy (some fd) = true := truthy_some_of_ne fd hne
    simp only [simple_filters, ht, truthy_none, if_true, Option.getD_some, hw,
      Bool.false_eq_true, if_false]
    split
    · rw [dictGet_dictSet_ne _ _ _ _ (by decide), dictGet_dictSet_self]
    · rw [dictGet_dictSet_self]

/-- Closed instance of C6: an explicit Friday beats the derived
Wednesday, and with no explicit day the derived Wednesday is used. -/
theorem C6_explicit_day_precedence_witness :
    dictGet (simple_filters (some "Friday") (some "November 5, 2025") none 2026)
      "day" = some "Friday" ∧
    dictGet (simple_filters none (some "November 5, 2025") none 2026)
      "day" = some "Wednesday" :=
  ⟨(C6_explicit_day_precedence (some "November 5, 2025") none 2026).1 "Friday"
      (by decide),
   (C6_explicit_day_precedence (some "November 5, 2025") none 2026).2
      "November 5, 2025" "Wednesday" (by decide) rfl (by decide)⟩

/-- C9: when a dependency inside the try block raises, `streaming_chat`
yields the history extended with the user question and the apology
message, and — the embedding being a total function — propagates no
exception; the apology text is never empty. -/
theorem C9_error_path (question : String) (history : List Msg) (e : String) :
    streaming_chat_final question history (RunOutcome.err e) =
      history ++ [⟨"user", question⟩, ⟨"assistant", apology e⟩] ∧
    apology e ≠ "" := by
  refine ⟨rfl, fun h => ?_⟩
  have hlen := congrArg String.length h
  simp [apology, String.length_append] at hlen
  exact absurd hlen.1.1 (by decide)

/-- C10: the depth is 100 exactly when the lower-cased specificity is
"broad", and 20 for every other string; hence it is always one of
20 or 100 and always strictly positive. -/
theorem C10_k_values (s : String) :
    (k_value s = 100 ↔ pyLower s = "broad") ∧
    (k_value s = 20 ↔ pyLower s ≠ "broad") ∧
    (k_value s = 20 ∨ k_value s = 100) ∧ 0 < k_value s := by
  unfold k_value
  by_cases h : pyLower s = "broad" <;> simp [h]

/-- Closed instance of C10 at three concrete specificity strings. -/
theorem C10_k_values_witness :
    k_value "BROAD" = 100 ∧ k_value "Specific" = 20 ∧ 0 < k_value "" :=
  ⟨((C10_k_values "BROAD").1).mpr (by decide),
   ((C10_k_values "Specific").2.1).mpr (by decide),
   (C10_k_values "").2.2.2⟩

/-- Closed instance of C9: a concrete dependency failure yields the
apology history. -/
theorem C9_error_path_witness :
    streaming_chat_final "hi" [] (RunOutcome.err "boom") =
      [] ++ [⟨"user", "hi"⟩, ⟨"assistant", apology "boom"⟩] ∧
    apology "boom" ≠ "" :=
  C9_error_path "hi" [] "boom"
